import Mathlib

set_option linter.unusedVariables false

/-!
Verification development for the Piggy-Boss savings contracts
(`src/contracts/src`).  The Solidity sources are shallowly embedded:
`uint256` values become `Nat` (SafeMath / checked arithmetic never wraps,
so no modular reduction is needed; a revert is modelled as `Except.error`),
storage mappings become Lean functions, addresses become `Nat`, and every
external entry point becomes a state-transition function returning
`Except String`.  An `error` result models a reverted transaction: no
state change and no token transfer.

The repository contains two `PiggyVault` contracts: the one in
`core/PiggyVault.sol` (embedded below as `CoreVault`) and a second full
implementation that follows the interface inside
`interfaces/IPiggyVault.sol` (embedded as `IVault`).  Both are modelled,
together with `core/YieldManager.sol`, `core/NFTRewards.sol` (the part
relevant to reward notification) and
`libraries/InterestCalculator.sol`.
-/

namespace PiggyBoss

/-! ## InterestCalculator (src/contracts/src/libraries/InterestCalculator.sol) -/

namespace InterestCalculator

def BASIS_POINTS : Nat := 10000

def SECONDS_PER_DAY : Nat := 86400

def SECONDS_PER_YEAR : Nat := 31536000

def PRECISION : Nat := 10 ^ 18

/-- SafeMath division: reverts on a zero denominator.  Divisions by the
nonzero constants (`PRECISION`, `BASIS_POINTS`, `365`, ...) are written with
plain `/`, which agrees with SafeMath there. -/
def safeDiv (a b : Nat) : Except String Nat :=
  if b = 0 then .error "SafeMath: division by zero" else .ok (a / b)

/-- Checked subtraction of Solidity 0.8 / SafeMath: reverts on underflow. -/
def safeSub (a b : Nat) : Except String Nat :=
  if a < b then .error "SafeMath: subtraction overflow" else .ok (a - b)

/-- The iterative daily-compounding loop of `calculateCompoundInterest`
(`for i = 0; i < compoundPeriods && i < 365; i++`), unrolled as a recursion
on the iteration count `min compoundPeriods 365`. -/
def compoundLoop : Nat → Nat → Nat → Nat
  | 0, compoundFactor, _ => compoundFactor
  | n + 1, compoundFactor, dailyFactor =>
      compoundLoop n (compoundFactor * dailyFactor / PRECISION) dailyFactor

/-- Embeds `InterestCalculator.calculateCompoundInterest` (lines 14-54).  Returns 0
when principal, APY or elapsed time is zero; otherwise it first computes
`timeFraction = timeElapsed * PRECISION / totalDuration` (an unguarded
division by `_totalDuration`), then either simple pro-rata interest
(elapsed < 1 day) or the bounded iterative daily compounding. -/
def calculateCompoundInterest (principal apyBasisPoints timeElapsed totalDuration : Nat) :
    Except String Nat :=
  if principal = 0 ∨ apyBasisPoints = 0 ∨ timeElapsed = 0 then .ok 0
  else
    match safeDiv (timeElapsed * PRECISION) totalDuration with
    | .error e => .error e
    | .ok timeFraction =>
        let apyDecimal := apyBasisPoints * PRECISION / BASIS_POINTS
        if timeElapsed < SECONDS_PER_DAY then
          .ok (principal * apyDecimal * timeFraction / PRECISION / PRECISION)
        else
          let dailyRate := apyDecimal / 365
          let compoundPeriods := timeElapsed / SECONDS_PER_DAY
          let dailyFactor := PRECISION + dailyRate
          let compoundFactor := compoundLoop (min compoundPeriods 365) PRECISION dailyFactor
          let finalAmount := principal * compoundFactor / PRECISION
          .ok (if finalAmount > principal then finalAmount - principal else 0)

end InterestCalculator

/-! ## YieldManager (src/contracts/src/core/YieldManager.sol)

The yield positions of a single (arbitrary but fixed) user.  Addresses
other than the position owner play no role in the verified claims, so the
per-user mappings `userPositions[_user]`, `userPositionCount[_user]` and
`totalUserYield[_user]` are projected onto that user.  The reward pool
(`totalRewardPool`, `distributedRewards`) is global and kept as-is.
Administrative mutation of `planMultipliers` / `globalApyMultiplier` is
outside the verified claims, so those keep their constructor values. -/

namespace YieldManager

open InterestCalculator

/-- The `YieldPosition` struct of YieldManager.sol (lines 41-49). -/
structure YieldPosition where
  principal : Nat
  accruedInterest : Nat
  startTime : Nat
  endTime : Nat
  apyBasisPoints : Nat
  lastUpdateTime : Nat
  isActive : Bool
  deriving DecidableEq

/-- A zeroed struct: the default value of the Solidity mapping
`userPositions`. -/
def emptyPosition : YieldPosition :=
  { principal := 0, accruedInterest := 0, startTime := 0, endTime := 0,
    apyBasisPoints := 0, lastUpdateTime := 0, isActive := false }

/-- Embeds `calculateAccruedInterest` (lines 177-200): 0 for an inactive position
or when `now ≤ lastUpdateTime`; otherwise compound interest on
`principal + accruedInterest` over `min now endTime - lastUpdateTime`
seconds with the fixed total duration `365 days` (the literal in line 196). -/
def calculateAccruedInterest (pos : YieldPosition) (now : Nat) : Except String Nat :=
  if pos.isActive = false ∨ now ≤ pos.lastUpdateTime then .ok 0
  else
    let currentTime := if now > pos.endTime then pos.endTime else now
    match safeSub currentTime pos.lastUpdateTime with
    | .error e => .error e
    | .ok timeElapsed =>
        calculateCompoundInterest (pos.principal + pos.accruedInterest)
          pos.apyBasisPoints timeElapsed (365 * SECONDS_PER_DAY)

/-- Embeds `updateAccruedInterest` (lines 207-223) on a single position.  The
second component of the result is the freshly accrued interest (the amount
added to `totalUserYield[_user]`; it is 0 exactly when the call leaves the
position unchanged). -/
def updateAccruedInterest (pos : YieldPosition) (now : Nat) :
    Except String (YieldPosition × Nat) :=
  if pos.isActive = false then .error "Position not active"
  else
    match calculateAccruedInterest pos now with
    | .error e => .error e
    | .ok newInterest =>
        if newInterest > 0 then
          .ok ({ pos with
                  accruedInterest := pos.accruedInterest + newInterest,
                  lastUpdateTime := if now > pos.endTime then pos.endTime else now },
               newInterest)
        else .ok (pos, 0)

/-- One accrual transaction at time `now`: a revert leaves the position
unchanged. -/
def accrueStep (pos : YieldPosition) (now : Nat) : YieldPosition :=
  match updateAccruedInterest pos now with
  | .ok r => r.1
  | .error _ => pos

/-- A sequence of accrual transactions. -/
def accrueMany (pos : YieldPosition) (ts : List Nat) : YieldPosition :=
  ts.foldl accrueStep pos

/-- The YieldManager storage relevant to the claims, projected onto one
user: their position mapping and count, their `totalUserYield` slot, and
the global reward pool counters. -/
structure YMState where
  positions : Nat → YieldPosition
  positionCount : Nat
  totalRewardPool : Nat
  distributedRewards : Nat
  totalUserYield : Nat

def setPosition (s : YMState) (pid : Nat) (pos : YieldPosition) : YMState :=
  { s with positions := fun j => if j = pid then pos else s.positions j }

/-- Embeds `updateAccruedInterest` acting on storage (mutates the position and
`totalUserYield`). -/
def updateAccruedInterestS (s : YMState) (pid now : Nat) : Except String YMState :=
  match updateAccruedInterest (s.positions pid) now with
  | .error e => .error e
  | .ok r =>
      .ok { setPosition s pid r.1 with totalUserYield := s.totalUserYield + r.2 }

/-- Embeds `planMultipliers` as initialised in the constructor (lines 110-113):
plans 7/14/30/90 at 100 %, any other key at the mapping default 0. -/
def planMultipliers (planDays : Nat) : Nat :=
  if planDays = 7 ∨ planDays = 14 ∨ planDays = 30 ∨ planDays = 90 then 10000 else 0

/-- Embeds `globalApyMultiplier` constructor value (line 57). -/
def globalApyMultiplier : Nat := 10000

/-- Embeds `calculateEffectiveAPY` (lines 362-375). -/
def calculateEffectiveAPY (planDays baseAPY : Nat) : Nat :=
  baseAPY * planMultipliers planDays / 10000 * globalApyMultiplier / 10000

/-- Embeds `createYieldPosition` (lines 142-169) for the fixed user; the
`recordDeposit` wrapper (lines 421-442) adds only metric bookkeeping that
is not part of any claim. -/
def createYieldPositionS (s : YMState) (principal planDays baseAPY now : Nat) :
    Except String (YMState × Nat) :=
  if principal = 0 then .error "Principal must be positive"
  else
    let positionId := s.positionCount
    let pos : YieldPosition :=
      { principal := principal, accruedInterest := 0, startTime := now,
        endTime := now + planDays * SECONDS_PER_DAY,
        apyBasisPoints := calculateEffectiveAPY planDays baseAPY,
        lastUpdateTime := now, isActive := true }
    .ok ({ setPosition s positionId pos with positionCount := s.positionCount + 1 },
         positionId)

/-- Embeds `_calculateUserTier` (lines 338-354). -/
def calculateUserTier (s : YMState) : Nat :=
  if s.totalUserYield ≥ 1000 * 10 ^ 18 ∧ s.positionCount ≥ 10 then 5
  else if s.totalUserYield ≥ 500 * 10 ^ 18 ∧ s.positionCount ≥ 5 then 4
  else if s.totalUserYield ≥ 100 * 10 ^ 18 ∧ s.positionCount ≥ 3 then 3
  else if s.totalUserYield ≥ 50 * 10 ^ 18 ∧ s.positionCount ≥ 2 then 2
  else 1

/-- The `bonusAmount` computed by `calculateAndDistributeBonus`
(lines 259-269) from the already-accrued state `s1`. -/
def bonusFor (s1 : YMState) (pid : Nat) (bonusType : String) : Nat :=
  let pos := s1.positions pid
  if bonusType = "completion" then
    (pos.principal + pos.accruedInterest) * 500 / 10000
  else if bonusType = "loyalty" then
    (pos.principal + pos.accruedInterest) * (calculateUserTier s1 * 100) / 10000
  else if bonusType = "early_adopter" then
    (pos.principal + pos.accruedInterest) * 300 / 10000
  else 0

/-- Embeds `calculateAndDistributeBonus` (lines 248-280).  The computed bonus is
always returned; the reward-pool counters are touched only when
`0 < bonus ≤ totalRewardPool`. -/
def calculateAndDistributeBonusS (s : YMState) (pid : Nat) (bonusType : String)
    (now : Nat) : Except String (YMState × Nat) :=
  if (s.positions pid).isActive = false then .error "Position not active"
  else
    match updateAccruedInterestS s pid now with
    | .error e => .error e
    | .ok s1 =>
        if bonusFor s1 pid bonusType > 0 ∧
            bonusFor s1 pid bonusType ≤ s1.totalRewardPool then
          .ok ({ s1 with
                  totalRewardPool := s1.totalRewardPool - bonusFor s1 pid bonusType,
                  distributedRewards := s1.distributedRewards + bonusFor s1 pid bonusType,
                  totalUserYield := s1.totalUserYield + bonusFor s1 pid bonusType },
               bonusFor s1 pid bonusType)
        else .ok (s1, bonusFor s1 pid bonusType)

/-- Embeds `finalizePosition` (lines 289-307): final accrual, then the position is
marked inactive; returns `(principal, totalInterest)`. -/
def finalizePositionS (s : YMState) (pid now : Nat) :
    Except String (YMState × Nat × Nat) :=
  if (s.positions pid).isActive = false then .error "Position not active"
  else
    match updateAccruedInterestS s pid now with
    | .error e => .error e
    | .ok s1 =>
        let pos := s1.positions pid
        .ok (setPosition s1 pid { pos with isActive := false },
             pos.principal, pos.accruedInterest)

/-- Embeds `recordWithdrawal` (lines 385-411): finalizes the position and adds
`interest + bonus` to `distributedRewards` without any pool check.  The
`metrics` and `userYieldData` bookkeeping it also performs is not part of
any claim and is omitted. -/
def recordWithdrawalS (s : YMState) (pid _principal interest bonus now : Nat) :
    Except String YMState :=
  match finalizePositionS s pid now with
  | .error e => .error e
  | .ok r =>
      .ok { r.1 with distributedRewards := r.1.distributedRewards + interest + bonus }

/-- Embeds `addToRewardPool` (lines 548-552). -/
def addToRewardPool (s : YMState) (amount : Nat) : YMState :=
  { s with totalRewardPool := s.totalRewardPool + amount }

end YieldManager

/-! ## Shared structs of IPiggyVault.sol -/

/-- The `SavingsPlan` struct (IPiggyVault.sol lines 15-21). -/
structure SavingsPlan where
  duration : Nat
  apyBasisPoints : Nat
  minAmount : Nat
  maxAmount : Nat
  isActive : Bool
  deriving DecidableEq

/-- The `Deposit` struct (IPiggyVault.sol lines 5-13). -/
structure Deposit where
  user : Nat
  amount : Nat
  planDays : Nat
  createdAt : Nat
  maturityTime : Nat
  isWithdrawn : Bool
  accruedInterest : Nat
  deriving DecidableEq

/-- A zeroed `Deposit`: the default value of the deposits mapping. -/
def emptyDeposit : Deposit :=
  { user := 0, amount := 0, planDays := 0, createdAt := 0, maturityTime := 0,
    isWithdrawn := false, accruedInterest := 0 }

/-! ## The PiggyVault implementation inside interfaces/IPiggyVault.sol
(lines 86-440), called `IVault` here.  Its `deposit` function wires a
deposit to a YieldManager position via `_depositYieldPositions`;
`withdraw`, `emergencyWithdraw` and `calculateCurrentInterest` are the
operations the claims are about.  Reward-NFT minting occurs only in
`deposit`, which is not itself the subject of a claim; the concrete states
used below are of exactly the shape `deposit` produces. -/

namespace IVault

/-- Embeds `_savingsPlans` as initialised in `_initializeSavingsPlans`
(lines 147-179). -/
def savingsPlans (planDays : Nat) : SavingsPlan :=
  if planDays = 30 then
    { duration := 30 * 86400, apyBasisPoints := 300,
      minAmount := 10 * 10 ^ 18, maxAmount := 1000 * 10 ^ 18, isActive := true }
  else if planDays = 90 then
    { duration := 90 * 86400, apyBasisPoints := 500,
      minAmount := 10 * 10 ^ 18, maxAmount := 5000 * 10 ^ 18, isActive := true }
  else if planDays = 180 then
    { duration := 180 * 86400, apyBasisPoints := 800,
      minAmount := 10 * 10 ^ 18, maxAmount := 10000 * 10 ^ 18, isActive := true }
  else if planDays = 365 then
    { duration := 365 * 86400, apyBasisPoints := 1200,
      minAmount := 10 * 10 ^ 18, maxAmount := 50000 * 10 ^ 18, isActive := true }
  else
    { duration := 0, apyBasisPoints := 0, minAmount := 0, maxAmount := 0,
      isActive := false }

/-- Embeds `_emergencyWithdrawalFees` as initialised in the constructor
(lines 131-134); mapping default 0 elsewhere.  There is no setter. -/
def emergencyWithdrawalFees (planDays : Nat) : Nat :=
  if planDays = 30 then 200
  else if planDays = 90 then 300
  else if planDays = 180 then 400
  else if planDays = 365 then 500
  else 0

/-- The vault storage (for the single fixed user) together with its
YieldManager collaborator state and the outgoing token-transfer log of the
deposit token (`transfersOut`; a transfer is appended only by a succeeding,
non-reverting call). -/
structure VaultState where
  deposits : Nat → Deposit
  userDeposits : Nat → List Nat
  depositYieldPositions : Nat → Nat
  depositCounter : Nat
  totalDeposits : Nat
  totalRewards : Nat
  emergencyMode : Bool
  ym : YieldManager.YMState
  transfersOut : List (Nat × Nat)

def setDeposit (s : VaultState) (id : Nat) (d : Deposit) : VaultState :=
  { s with deposits := fun j => if j = id then d else s.deposits j }

/-- Embeds `withdraw` (lines 241-282): owner / not-withdrawn / maturity checks,
then `finalizePosition`, then (always, because maturity was just required)
`calculateAndDistributeBonus "completion"` on the same position, then state
update, transfer and `recordWithdrawal` (which the source passes the
deposit id, not the position id). -/
def withdraw (s : VaultState) (caller id now : Nat) :
    Except String (VaultState × Nat) :=
  let d := s.deposits id
  if ¬ d.user = caller then .error "Not deposit owner"
  else if d.isWithdrawn = true then .error "Already withdrawn"
  else if now < d.maturityTime then .error "Deposit not matured"
  else
    let pid := s.depositYieldPositions id
    match YieldManager.finalizePositionS s.ym pid now with
    | .error e => .error e
    | .ok r1 =>
        match (if now ≥ d.maturityTime
               then YieldManager.calculateAndDistributeBonusS r1.1 pid "completion" now
               else .ok (r1.1, 0)) with
        | .error e => .error e
        | .ok r2 =>
            let interest := r1.2.2
            let bonus := r2.2
            let totalWithdrawal := d.amount + interest + bonus
            let s1 := setDeposit s id { d with isWithdrawn := true, accruedInterest := interest }
            let s2 := { s1 with
                         ym := r2.1,
                         totalRewards := s.totalRewards + interest + bonus,
                         transfersOut := (caller, totalWithdrawal) :: s.transfersOut }
            match YieldManager.recordWithdrawalS s2.ym id d.amount interest bonus now with
            | .error e => .error e
            | .ok ym3 => .ok ({ s2 with ym := ym3 }, totalWithdrawal)

/-- Embeds `emergencyWithdraw` (lines 284-302): only the owner and
already-withdrawn checks; a flat per-plan fee
`amount * _emergencyWithdrawalFees[planDays] / 10000`; no call into the
YieldManager at all. -/
def emergencyWithdraw (s : VaultState) (caller id _now : Nat) :
    Except String (VaultState × Nat) :=
  let d := s.deposits id
  if ¬ d.user = caller then .error "Not deposit owner"
  else if d.isWithdrawn = true then .error "Already withdrawn"
  else
    let fee := d.amount * emergencyWithdrawalFees d.planDays / 10000
    match InterestCalculator.safeSub d.amount fee with
    | .error e => .error e
    | .ok withdrawalAmount =>
        .ok ({ setDeposit s id { d with isWithdrawn := true } with
                transfersOut := (caller, withdrawalAmount) :: s.transfersOut },
             withdrawalAmount)

/-- Embeds `calculateCurrentInterest` = `_calculatePendingRewards`
(lines 304-306 and 377-393): 0 for a withdrawn deposit, otherwise simple
pro-rata interest `amount * apy * elapsed / 365 days / 10000` with the
elapsed time capped at `maturityTime - createdAt`. -/
def calculateCurrentInterest (s : VaultState) (id now : Nat) : Except String Nat :=
  let d := s.deposits id
  if d.isWithdrawn = true then .ok 0
  else
    match (if now > d.maturityTime
           then InterestCalculator.safeSub d.maturityTime d.createdAt
           else InterestCalculator.safeSub now d.createdAt) with
    | .error e => .error e
    | .ok timeElapsed =>
        let plan := savingsPlans d.planDays
        .ok (d.amount * plan.apyBasisPoints * timeElapsed / (365 * 86400) / 10000)

end IVault

/-! ## NFTRewards (src/contracts/src/core/NFTRewards.sol)

Only the reward-notification surface used by the vaults is modelled: the
`userHasNFT` map and `mintReward` (lines 210-217) →
`_mintRewardInternal` (lines 275-302), which *requires* that the user does
not already own the category ("User already has this NFT") — unlike the
guarded `mintTimeBasedReward` / `mintAmountBasedReward` /
`batchMintRewards` entry points, which skip instead of reverting.  Token
ids, achievement points and URI generation are not part of any claim.  The
caller (the vault) is an authorized minter per the deployment script. -/

namespace NFTRewards

/-- The category keys initialised in `_initializeNFTCategories`
(lines 86-207) — exactly these have a nonempty `name`, which is what the
"Invalid category" check tests. -/
def validCategories : List String :=
  ["BRONZE_PIGGY", "SILVER_PIGGY", "GOLD_PIGGY", "DIAMOND_PIGGY",
   "FIRST_DEPOSIT", "PIGGY_SAVER", "PIGGY_MASTER", "PIGGY_LEGEND",
   "EARLY_ADOPTER", "LOYAL_SAVER", "YIELD_HUNTER", "GENESIS_USER",
   "HACKATHON_WINNER"]

/-- Embeds `mintReward` / `_mintRewardInternal` acting on the `userHasNFT` map. -/
def mintReward (userHasNFT : Nat → String → Bool) (recipient : Nat)
    (category : String) : Except String (Nat → String → Bool) :=
  if validCategories.contains category = false then .error "Invalid category"
  else if userHasNFT recipient category = true then .error "User already has this NFT"
  else .ok (fun u c => if u = recipient ∧ c = category then true else userHasNFT u c)

end NFTRewards

/-! ## The PiggyVault in core/PiggyVault.sol, called `CoreVault` here. -/

namespace CoreVault

def EMERGENCY_PENALTY : Nat := 500

def BASIS_POINTS : Nat := 10000

def MATURITY_BONUS : Nat := 1000

/-- Embeds `savingsPlans` as initialised in `_initializeSavingsPlans`
(lines 113-145). -/
def savingsPlans (planDays : Nat) : SavingsPlan :=
  if planDays = 7 then
    { duration := 7 * 86400, apyBasisPoints := 500,
      minAmount := 10 * 10 ^ 18, maxAmount := 100000 * 10 ^ 18, isActive := true }
  else if planDays = 14 then
    { duration := 14 * 86400, apyBasisPoints := 800,
      minAmount := 10 * 10 ^ 18, maxAmount := 100000 * 10 ^ 18, isActive := true }
  else if planDays = 30 then
    { duration := 30 * 86400, apyBasisPoints := 1200,
      minAmount := 10 * 10 ^ 18, maxAmount := 100000 * 10 ^ 18, isActive := true }
  else if planDays = 90 then
    { duration := 90 * 86400, apyBasisPoints := 1800,
      minAmount := 10 * 10 ^ 18, maxAmount := 100000 * 10 ^ 18, isActive := true }
  else
    { duration := 0, apyBasisPoints := 0, minAmount := 0, maxAmount := 0,
      isActive := false }

/-- The vault storage together with the `userHasNFT` map of its NFTRewards
collaborator and the token-transfer logs.  The `yieldManager` collaborator
call in `withdrawDeposit` is modelled as a successful external
notification: `core/PiggyVault.sol` never creates yield positions and its
4-argument `recordWithdrawal` call does not even match IYieldManager's
5-argument declaration, so no position state can be attached to it. -/
structure CoreState where
  deposits : Nat → Deposit
  userDepositIds : Nat → List Nat
  nextDepositId : Nat
  totalDeposits : Nat
  totalRewards : Nat
  paused : Bool
  userHasNFT : Nat → String → Bool
  transfersIn : List (Nat × Nat)
  transfersOut : List (Nat × Nat)

/-- Embeds `createDeposit` (lines 152-191): plan and amount validation, fund pull,
deposit record, then the unguarded NFT notifications — `FIRST_DEPOSIT` on
the first deposit and `_checkAmountMilestones` (lines 333-343) for the
100 / 1000 / 10000-unit tiers.  Any revert from `mintReward` reverts the
whole deposit. -/
def createDeposit (s : CoreState) (caller amount planDays now : Nat) :
    Except String (CoreState × Nat) :=
  if s.paused = true then .error "Pausable: paused"
  else
    let plan := savingsPlans planDays
    if plan.isActive = false then .error "Savings plan not active"
    else if amount < plan.minAmount then .error "Amount below minimum"
    else if amount > plan.maxAmount then .error "Amount above maximum"
    else
      let depositId := s.nextDepositId
      let maturityTime := now + plan.duration
      let s1 : CoreState :=
        { s with
            transfersIn := (caller, amount) :: s.transfersIn,
            deposits := fun j =>
              if j = depositId then
                { user := caller, amount := amount, planDays := planDays,
                  createdAt := now, maturityTime := maturityTime,
                  isWithdrawn := false, accruedInterest := 0 }
              else s.deposits j,
            userDepositIds := fun u =>
              if u = caller then s.userDepositIds caller ++ [depositId]
              else s.userDepositIds u,
            nextDepositId := s.nextDepositId + 1,
            totalDeposits := s.totalDeposits + amount }
      match (if (s1.userDepositIds caller).length = 1
             then NFTRewards.mintReward s1.userHasNFT caller "FIRST_DEPOSIT"
             else .ok s1.userHasNFT) with
      | .error e => .error e
      | .ok n1 =>
        match (if amount ≥ 100 * 10 ^ 18
               then NFTRewards.mintReward n1 caller "PIGGY_SAVER"
               else .ok n1) with
        | .error e => .error e
        | .ok n2 =>
          match (if amount ≥ 1000 * 10 ^ 18
                 then NFTRewards.mintReward n2 caller "PIGGY_MASTER"
                 else .ok n2) with
          | .error e => .error e
          | .ok n3 =>
            match (if amount ≥ 10000 * 10 ^ 18
                   then NFTRewards.mintReward n3 caller "PIGGY_LEGEND"
                   else .ok n3) with
            | .error e => .error e
            | .ok n4 => .ok ({ s1 with userHasNFT := n4 }, depositId)

/-- Embeds `calculateCurrentInterest` (lines 270-290): the frozen interest for a
withdrawn deposit; otherwise compound interest on the principal with the
plan duration as the total-duration argument, the elapsed time being the
full `plan.duration` past maturity and `now - createdAt` before. -/
def calculateCurrentInterest (s : CoreState) (id now : Nat) : Except String Nat :=
  if ¬ id < s.nextDepositId then .error "Invalid deposit ID"
  else
    let d := s.deposits id
    if d.isWithdrawn = true then .ok d.accruedInterest
    else
      let plan := savingsPlans d.planDays
      match (if now > d.maturityTime then .ok plan.duration
             else InterestCalculator.safeSub now d.createdAt) with
      | .error e => .error e
      | .ok timeElapsed =>
          InterestCalculator.calculateCompoundInterest d.amount plan.apyBasisPoints
            timeElapsed plan.duration

/-- Embeds `withdrawDeposit` (lines 197-237): id / owner / not-withdrawn /
maturity checks, then payout of
`amount + interest + amount * MATURITY_BONUS / BASIS_POINTS`. -/
def withdrawDeposit (s : CoreState) (caller id now : Nat) :
    Except String (CoreState × Nat) :=
  if ¬ id < s.nextDepositId then .error "Invalid deposit ID"
  else if ¬ (s.deposits id).user = caller then .error "Not deposit owner"
  else
    let d := s.deposits id
    if d.isWithdrawn = true then .error "Already withdrawn"
    else if now < d.maturityTime then .error "Not matured yet"
    else
      match calculateCurrentInterest s id now with
      | .error e => .error e
      | .ok interest =>
          let bonus := if now ≥ d.maturityTime
                       then d.amount * MATURITY_BONUS / BASIS_POINTS else 0
          let totalWithdrawal := d.amount + interest + bonus
          .ok ({ s with
                  deposits := fun j =>
                    if j = id then { d with isWithdrawn := true, accruedInterest := interest }
                    else s.deposits j,
                  totalRewards := s.totalRewards + interest + bonus,
                  transfersOut := (caller, totalWithdrawal) :: s.transfersOut },
               totalWithdrawal)

/-- Embeds `emergencyWithdraw` (lines 243-263): id / owner / not-withdrawn checks,
*requires `now < maturityTime`*, flat 5 % penalty, pays
`amount - penalty`. -/
def emergencyWithdraw (s : CoreState) (caller id now : Nat) :
    Except String (CoreState × Nat) :=
  if ¬ id < s.nextDepositId then .error "Invalid deposit ID"
  else if ¬ (s.deposits id).user = caller then .error "Not deposit owner"
  else
    let d := s.deposits id
    if d.isWithdrawn = true then .error "Already withdrawn"
    else if ¬ now < d.maturityTime then .error "Use regular withdrawal"
    else
      let penalty := d.amount * EMERGENCY_PENALTY / BASIS_POINTS
      match InterestCalculator.safeSub d.amount penalty with
      | .error e => .error e
      | .ok withdrawAmount =>
          .ok ({ s with
                  deposits := fun j =>
                    if j = id then { d with isWithdrawn := true } else s.deposits j,
                  transfersOut := (caller, withdrawAmount) :: s.transfersOut },
               withdrawAmount)

end CoreVault

/-! ## Concrete states used by witnesses and counterexamples -/

namespace Claims

/-- An active 30-day position (1200 bps effective APY on 100 tokens),
fresh at time 0. -/
def posC1 : YieldManager.YieldPosition :=
  { principal := 10 ^ 20, accruedInterest := 0, startTime := 0, endTime := 2592000,
    apyBasisPoints := 1200, lastUpdateTime := 0, isActive := true }

/-- An active 30-day position (1200 bps effective APY on 1000 tokens),
fresh at time 0. -/
def posC2 : YieldManager.YieldPosition :=
  { principal := 10 ^ 21, accruedInterest := 0, startTime := 0, endTime := 2592000,
    apyBasisPoints := 1200, lastUpdateTime := 0, isActive := true }

/-- A YieldManager state with one active position of principal 1200 and an
empty reward pool. -/
def ymC3base : YieldManager.YMState :=
  { positions := fun j =>
      if j = 0 then
        { principal := 1200, accruedInterest := 0, startTime := 0, endTime := 100,
          apyBasisPoints := 0, lastUpdateTime := 0, isActive := true }
      else YieldManager.emptyPosition,
    positionCount := 1, totalRewardPool := 0, distributedRewards := 0,
    totalUserYield := 0 }

/-- State `ymC3base` after the owner funds the reward pool with 100
(`addToRewardPool`). -/
def ymC3 : YieldManager.YMState := YieldManager.addToRewardPool ymC3base 100

/-- The pool counters after distributing a "completion" bonus out of
`ymC3` at time 0 (the accrual there is a no-op, so the bonus is
`1200 * 500 / 10000 = 60 ≤ 100`). -/
def ymC3dist : Option (Nat × Nat) :=
  (YieldManager.calculateAndDistributeBonusS ymC3 0 "completion" 0).toOption.map
    fun r => (r.1.totalRewardPool, r.1.distributedRewards)

/-- The state reached from `ymC3` by the "completion" bonus distribution. -/
def ymC3after : YieldManager.YMState :=
  match YieldManager.calculateAndDistributeBonusS ymC3 0 "completion" 0 with
  | .ok r => r.1
  | .error _ => ymC3

/-- The state reached from `ymC3` by `recordWithdrawal` with interest 7 and
bonus 5. -/
def ymC3rec : YieldManager.YMState :=
  match YieldManager.recordWithdrawalS ymC3 0 1200 7 5 0 with
  | .ok s1 => s1
  | .error _ => ymC3

/-- A core-vault state holding one already-withdrawn deposit of user 1. -/
def csC4 : CoreVault.CoreState :=
  { deposits := fun j =>
      if j = 0 then
        { user := 1, amount := 10 ^ 20, planDays := 30, createdAt := 0,
          maturityTime := 2592000, isWithdrawn := true, accruedInterest := 5 }
      else emptyDeposit,
    userDepositIds := fun u => if u = 1 then [0] else [],
    nextDepositId := 1, totalDeposits := 10 ^ 20, totalRewards := 0,
    paused := false, userHasNFT := fun _ _ => false,
    transfersIn := [], transfersOut := [] }

/-- A core-vault state holding one open 30-day deposit of 1000 tokens by
user 1, created at time 0 (so matured at 2592000). -/
def csC5 : CoreVault.CoreState :=
  { deposits := fun j =>
      if j = 0 then
        { user := 1, amount := 10 ^ 21, planDays := 30, createdAt := 0,
          maturityTime := 2592000, isWithdrawn := false, accruedInterest := 0 }
      else emptyDeposit,
    userDepositIds := fun u => if u = 1 then [0] else [],
    nextDepositId := 1, totalDeposits := 10 ^ 21, totalRewards := 0,
    paused := false, userHasNFT := fun _ _ => false,
    transfersIn := [], transfersOut := [] }

/-- The amount the core vault pays out when user 1 withdraws deposit 0 of
`csC5` exactly at maturity. -/
def c5payout : Option Nat :=
  (CoreVault.withdrawDeposit csC5 1 0 2592000).toOption.map fun r => r.2

/-- An `IVault` state exactly as its `deposit` produces it: user 1 put
1000 tokens into the 30-day plan (300 bps) at time 0; deposit id 1 is
wired to yield position 0, which is active with the effective APY 300. -/
def vsC6 : IVault.VaultState :=
  { deposits := fun j =>
      if j = 1 then
        { user := 1, amount := 10 ^ 21, planDays := 30, createdAt := 0,
          maturityTime := 2592000, isWithdrawn := false, accruedInterest := 0 }
      else emptyDeposit,
    userDeposits := fun u => if u = 1 then [1] else [],
    depositYieldPositions := fun _ => 0,
    depositCounter := 2, totalDeposits := 10 ^ 21, totalRewards := 0,
    emergencyMode := false,
    ym := { positions := fun j =>
              if j = 0 then
                { principal := 10 ^ 21, accruedInterest := 0, startTime := 0,
                  endTime := 2592000, apyBasisPoints := 300, lastUpdateTime := 0,
                  isActive := true }
              else YieldManager.emptyPosition,
            positionCount := 1, totalRewardPool := 0, distributedRewards := 0,
            totalUserYield := 0 },
    transfersOut := [] }

/-- The observable outcome of `emergencyWithdraw` on `vsC6` at day 5:
(position 0 still active?, deposit 1 withdrawn?, payout). -/
def c6run : Option (Bool × Bool × Nat) :=
  (IVault.emergencyWithdraw vsC6 1 1 432000).toOption.map
    fun r => ((r.1.ym.positions 0).isActive, (r.1.deposits 1).isWithdrawn, r.2)

/-- The YieldManager state created by `recordDeposit`/`createYieldPosition`
for a 1000-token 30-day deposit with base APY 300 at time 0. -/
def ymC8 : YieldManager.YMState :=
  match YieldManager.createYieldPositionS
      { positions := fun _ => YieldManager.emptyPosition, positionCount := 0,
        totalRewardPool := 0, distributedRewards := 0, totalUserYield := 0 }
      (10 ^ 21) 30 300 0 with
  | .ok r => r.1
  | .error _ =>
      { positions := fun _ => YieldManager.emptyPosition, positionCount := 0,
        totalRewardPool := 0, distributedRewards := 0, totalUserYield := 0 }

/-- An `IVault` state as `deposit` produces it, with the yield position
built by the embedded `createYieldPosition` itself (`ymC8`). -/
def vsC8 : IVault.VaultState :=
  { deposits := fun j =>
      if j = 1 then
        { user := 1, amount := 10 ^ 21, planDays := 30, createdAt := 0,
          maturityTime := 2592000, isWithdrawn := false, accruedInterest := 0 }
      else emptyDeposit,
    userDeposits := fun u => if u = 1 then [1] else [],
    depositYieldPositions := fun _ => 0,
    depositCounter := 2, totalDeposits := 10 ^ 21, totalRewards := 0,
    emergencyMode := false, ym := ymC8, transfersOut := [] }

/-- What a real accrual (`updateAccruedInterest`) of deposit 1's yield
position produces at `now = 2592000`. -/
def c8accrued : Option Nat :=
  (YieldManager.updateAccruedInterestS vsC8.ym 0 2592000).toOption.map
    fun s2 => (s2.positions 0).accruedInterest

/-- A copy of the `vsC6` shape for the C10 witness. -/
def vsC10 : IVault.VaultState :=
  { deposits := fun j =>
      if j = 1 then
        { user := 1, amount := 10 ^ 21, planDays := 30, createdAt := 0,
          maturityTime := 2592000, isWithdrawn := false, accruedInterest := 0 }
      else emptyDeposit,
    userDeposits := fun u => if u = 1 then [1] else [],
    depositYieldPositions := fun _ => 0,
    depositCounter := 2, totalDeposits := 10 ^ 21, totalRewards := 0,
    emergencyMode := false,
    ym := { positions := fun j =>
              if j = 0 then
                { principal := 10 ^ 21, accruedInterest := 0, startTime := 0,
                  endTime := 2592000, apyBasisPoints := 300, lastUpdateTime := 0,
                  isActive := true }
              else YieldManager.emptyPosition,
            positionCount := 1, totalRewardPool := 0, distributedRewards := 0,
            totalUserYield := 0 },
    transfersOut := [] }

/-- The empty core-vault state (fresh contract, nothing deposited). -/
def csC9init : CoreVault.CoreState :=
  { deposits := fun _ => emptyDeposit,
    userDepositIds := fun _ => [],
    nextDepositId := 0, totalDeposits := 0, totalRewards := 0,
    paused := false, userHasNFT := fun _ _ => false,
    transfersIn := [], transfersOut := [] }

/-- The state after user 1's first deposit of 150 tokens into the 30-day
plan. -/
def c9s1 : Option CoreVault.CoreState :=
  (CoreVault.createDeposit csC9init 1 (150 * 10 ^ 18) 30 0).toOption.map
    fun r => r.1

/-- The revert message of user 1's second, identical deposit. -/
def c9err : Option String :=
  c9s1.bind fun s1 =>
    match CoreVault.createDeposit s1 1 (150 * 10 ^ 18) 30 86400 with
    | .error e => some e
    | .ok _ => none

end Claims

/-! ## Basic lemmas about the embedded functions -/

theorem calculateCompoundInterest_zero_elapsed (p a d : Nat) :
    InterestCalculator.calculateCompoundInterest p a 0 d = .ok 0 := by
  simp [InterestCalculator.calculateCompoundInterest]

theorem calculateCompoundInterest_isOk (p a t d : Nat) (hd : d ≠ 0) :
    ∃ v, InterestCalculator.calculateCompoundInterest p a t d = .ok v := by
  unfold InterestCalculator.calculateCompoundInterest
  by_cases h : p = 0 ∨ a = 0 ∨ t = 0
  · simp [h]
  · simp only [h, if_false, InterestCalculator.safeDiv, hd]
    split
    · exact ⟨_, rfl⟩
    · exact ⟨_, rfl⟩

namespace YieldManager

theorem accrueStep_accrued_le (pos : YieldPosition) (now : Nat) :
    pos.accruedInterest ≤ (accrueStep pos now).accruedInterest := by
  unfold accrueStep updateAccruedInterest
  by_cases hact : pos.isActive = false
  · simp [hact]
  · simp only [hact, if_false]
    cases h : calculateAccruedInterest pos now with
    | error e => simp
    | ok n =>
        by_cases hn : n > 0
        · simp [hn, Nat.le_add_right]
        · simp [hn]

theorem accrueMany_accrued_le (pos : YieldPosition) (ts : List Nat) :
    pos.accruedInterest ≤ (accrueMany pos ts).accruedInterest := by
  induction ts generalizing pos with
  | nil => simp [accrueMany]
  | cons t ts ih =>
      exact le_trans (accrueStep_accrued_le pos t) (ih (accrueStep pos t))

theorem accrueStep_idem (pos : YieldPosition) (now : Nat) :
    accrueStep (accrueStep pos now) now = accrueStep pos now := by
  by_cases hact : pos.isActive = false
  · have h1 : accrueStep pos now = pos := by
      unfold accrueStep updateAccruedInterest
      simp [hact]
    simp only [h1]
  · cases h : calculateAccruedInterest pos now with
    | error e =>
        have h1 : accrueStep pos now = pos := by
          unfold accrueStep updateAccruedInterest
          simp [hact, h]
        simp only [h1]
    | ok n =>
        have hacT : pos.isActive = true := by simpa using hact
        by_cases hn : n > 0
        · by_cases hend : now > pos.endTime
          · have h1 : accrueStep pos now =
                { principal := pos.principal, accruedInterest := pos.accruedInterest + n,
                  startTime := pos.startTime, endTime := pos.endTime,
                  apyBasisPoints := pos.apyBasisPoints, lastUpdateTime := pos.endTime,
                  isActive := true } := by
              unfold accrueStep updateAccruedInterest
              simp [hact, hacT, h, hn, hend]
            have hcalc2 : calculateAccruedInterest
                { principal := pos.principal, accruedInterest := pos.accruedInterest + n,
                  startTime := pos.startTime, endTime := pos.endTime,
                  apyBasisPoints := pos.apyBasisPoints, lastUpdateTime := pos.endTime,
                  isActive := true } now = .ok 0 := by
              unfold calculateAccruedInterest
              by_cases hguard : now ≤ pos.endTime
              · exact absurd hguard (not_le_of_gt hend)
              · have hsub : InterestCalculator.safeSub pos.endTime pos.endTime = .ok 0 := by
                  simp [InterestCalculator.safeSub]
                simp [hguard, hend, hsub, calculateCompoundInterest_zero_elapsed]
            have h2 : accrueStep
                { principal := pos.principal, accruedInterest := pos.accruedInterest + n,
                  startTime := pos.startTime, endTime := pos.endTime,
                  apyBasisPoints := pos.apyBasisPoints, lastUpdateTime := pos.endTime,
                  isActive := true } now =
                { principal := pos.principal, accruedInterest := pos.accruedInterest + n,
                  startTime := pos.startTime, endTime := pos.endTime,
                  apyBasisPoints := pos.apyBasisPoints, lastUpdateTime := pos.endTime,
                  isActive := true } := by
              unfold accrueStep updateAccruedInterest
              simp [hcalc2]
            simp only [h1, h2]
          · have h1 : accrueStep pos now =
                { principal := pos.principal, accruedInterest := pos.accruedInterest + n,
                  startTime := pos.startTime, endTime := pos.endTime,
                  apyBasisPoints := pos.apyBasisPoints, lastUpdateTime := now,
                  isActive := true } := by
              unfold accrueStep updateAccruedInterest
              simp [hact, hacT, h, hn, hend]
            have hcalc2 : calculateAccruedInterest
                { principal := pos.principal, accruedInterest := pos.accruedInterest + n,
                  startTime := pos.startTime, endTime := pos.endTime,
                  apyBasisPoints := pos.apyBasisPoints, lastUpdateTime := now,
                  isActive := true } now = .ok 0 := by
              unfold calculateAccruedInterest
              simp
            have h2 : accrueStep
                { principal := pos.principal, accruedInterest := pos.accruedInterest + n,
                  startTime := pos.startTime, endTime := pos.endTime,
                  apyBasisPoints := pos.apyBasisPoints, lastUpdateTime := now,
                  isActive := true } now =
                { principal := pos.principal, accruedInterest := pos.accruedInterest + n,
                  startTime := pos.startTime, endTime := pos.endTime,
                  apyBasisPoints := pos.apyBasisPoints, lastUpdateTime := now,
                  isActive := true } := by
              unfold accrueStep updateAccruedInterest
              simp [hcalc2]
            simp only [h1, h2]
        · have h1 : accrueStep pos now = pos := by
            unfold accrueStep updateAccruedInterest
            simp [hact, h, hn]
          simp only [h1]

end YieldManager

/-! ## Claim C1 -/

/-- C1: for every active yield position, accrual is idempotent (a second
`updateAccruedInterest` at the same time `t` changes nothing — not even
`lastUpdateTime`) and monotonic (any sequence of accrual transactions at
non-decreasing times never decreases `accruedInterest`). -/
theorem claim1_accrue_idempotent_and_monotone (pos : YieldManager.YieldPosition)
    (t : Nat) (ts : List Nat) (hact : pos.isActive = true)
    (hmono : ts.Chain' (· ≤ ·)) :
    YieldManager.accrueStep (YieldManager.accrueStep pos t) t =
      YieldManager.accrueStep pos t ∧
    pos.accruedInterest ≤ (YieldManager.accrueMany pos ts).accruedInterest :=
  ⟨YieldManager.accrueStep_idem pos t, YieldManager.accrueMany_accrued_le pos ts⟩

/-- Witness for C1 at a concrete active position and time sequence. -/
theorem claim1_witness :
    YieldManager.accrueStep (YieldManager.accrueStep Claims.posC1 86400) 86400 =
      YieldManager.accrueStep Claims.posC1 86400 ∧
    Claims.posC1.accruedInterest ≤
      (YieldManager.accrueMany Claims.posC1 [86400, 172800]).accruedInterest :=
  claim1_accrue_idempotent_and_monotone Claims.posC1 86400 [86400, 172800]
    rfl (by norm_num [List.chain'_cons])

/-! ## Claim C2 -/

/-- C2 counterexample: `updateAccruedInterest` does *not* add
`compoundInterest(principal + accruedInterest, apy, cappedNow -
lastUpdateTime, endTime - startTime)`.  On a fresh 30-day position at
`now = 43200` (half a day in), the code adds the amount computed with the
fixed total duration `365 days` (164383561643835600 wei ≈ 0.164 tokens),
while the claim's formula with the position's own duration
`endTime - startTime` yields 1999999999999999920 wei ≈ 2 tokens. -/
theorem claim2_counterexample :
    (YieldManager.accrueStep Claims.posC2 43200).accruedInterest =
      164383561643835600 ∧
    (InterestCalculator.calculateCompoundInterest
        (Claims.posC2.principal + Claims.posC2.accruedInterest)
        Claims.posC2.apyBasisPoints
        (min 43200 Claims.posC2.endTime - Claims.posC2.lastUpdateTime)
        (Claims.posC2.endTime - Claims.posC2.startTime)).toOption =
      some 1999999999999999920 ∧
    (164383561643835600 : Nat) ≠ 1999999999999999920 :=
  ⟨rfl, rfl, by decide⟩

/-- C2 (amended): for an active position with `lastUpdateTime ≤ endTime`,
accrual computes `cappedNow = min now endTime`; the interest added is
`compoundInterest(principal + accruedInterest, apy, cappedNow -
lastUpdateTime, 365 days)` — the total-duration argument is the fixed
annual constant, not the position's own duration — and the call is a
no-op (in particular `lastUpdateTime` is not advanced) exactly when that
computed interest is zero, which includes every `cappedNow ≤
lastUpdateTime` case. -/
theorem claim2_accrual_formula (pos : YieldManager.YieldPosition) (now : Nat)
    (hact : pos.isActive = true) (hinv : pos.lastUpdateTime ≤ pos.endTime) :
    ∃ newI,
      InterestCalculator.calculateCompoundInterest
          (pos.principal + pos.accruedInterest) pos.apyBasisPoints
          (min now pos.endTime - pos.lastUpdateTime)
          (365 * InterestCalculator.SECONDS_PER_DAY) = .ok newI ∧
      YieldManager.updateAccruedInterest pos now =
        .ok (if newI = 0 then (pos, 0)
             else ({ pos with
                      accruedInterest := pos.accruedInterest + newI,
                      lastUpdateTime := min now pos.endTime }, newI)) := by
  obtain ⟨v, hv⟩ := calculateCompoundInterest_isOk
    (pos.principal + pos.accruedInterest) pos.apyBasisPoints
    (min now pos.endTime - pos.lastUpdateTime)
    (365 * InterestCalculator.SECONDS_PER_DAY)
    (by norm_num [InterestCalculator.SECONDS_PER_DAY])
  have hactF : ¬ pos.isActive = false := by simp [hact]
  refine ⟨v, hv, ?_⟩
  by_cases hnow : now ≤ pos.lastUpdateTime
  · have ht0 : min now pos.endTime - pos.lastUpdateTime = 0 :=
      Nat.sub_eq_zero_of_le (le_trans (min_le_left _ _) hnow)
    have hv0 : v = 0 := by
      rw [ht0, calculateCompoundInterest_zero_elapsed] at hv
      exact (Except.ok.inj hv).symm
    have hcalc : YieldManager.calculateAccruedInterest pos now = .ok 0 := by
      unfold YieldManager.calculateAccruedInterest
      simp [hnow]
    subst hv0
    unfold YieldManager.updateAccruedInterest
    simp [hactF, hcalc]
  · have hlt : pos.lastUpdateTime < now := Nat.lt_of_not_le hnow
    have hcur : (if now > pos.endTime then pos.endTime else now) = min now pos.endTime := by
      rcases le_or_lt now pos.endTime with h | h
      · rw [if_neg (not_lt.mpr h), min_eq_left h]
      · rw [if_pos h, min_eq_right (le_of_lt h)]
    have hge : pos.lastUpdateTime ≤ min now pos.endTime := by
      rcases le_or_lt now pos.endTime with h | h
      · rw [min_eq_left h]; exact le_of_lt hlt
      · rw [min_eq_right (le_of_lt h)]; exact hinv
    have hsub : InterestCalculator.safeSub (min now pos.endTime) pos.lastUpdateTime =
        .ok (min now pos.endTime - pos.lastUpdateTime) := by
      unfold InterestCalculator.safeSub
      rw [if_neg (not_lt.mpr hge)]
    have hcalc : YieldManager.calculateAccruedInterest pos now = .ok v := by
      unfold YieldManager.calculateAccruedInterest
      have hguard : ¬ (pos.isActive = false ∨ now ≤ pos.lastUpdateTime) := by
        simp [hact, hnow]
      rw [if_neg hguard]
      simp only [hcur, hsub]
      exact hv
    unfold YieldManager.updateAccruedInterest
    rw [if_neg hactF, hcalc]
    by_cases hv0 : v = 0
    · simp [hv0]
    · simp [hv0, Nat.pos_of_ne_zero hv0, hcur]

/-- Witness for C2 (amended) at a concrete position and time. -/
theorem claim2_witness :
    ∃ newI,
      InterestCalculator.calculateCompoundInterest
          (Claims.posC2.principal + Claims.posC2.accruedInterest)
          Claims.posC2.apyBasisPoints
          (min 43200 Claims.posC2.endTime - Claims.posC2.lastUpdateTime)
          (365 * InterestCalculator.SECONDS_PER_DAY) = .ok newI ∧
      YieldManager.updateAccruedInterest Claims.posC2 43200 =
        .ok (if newI = 0 then (Claims.posC2, 0)
             else ({ Claims.posC2 with
                      accruedInterest := Claims.posC2.accruedInterest + newI,
                      lastUpdateTime := min 43200 Claims.posC2.endTime }, newI)) :=
  claim2_accrual_formula Claims.posC2 43200 rfl (by decide)

/-! ## Claim C7 -/

/-- C7 counterexample: `calculateCompoundInterest` is not total — with
`totalDuration = 0` and all other inputs nonzero the unguarded
`timeElapsed * PRECISION / totalDuration` division reverts instead of
returning 0 as the claim states. -/
theorem claim7_counterexample :
    InterestCalculator.calculateCompoundInterest 1 1 1 0 =
      .error "SafeMath: division by zero" := rfl

/-- C7 (amended): `calculateCompoundInterest` returns 0 whenever principal,
APY or elapsed time is zero, and it never reverts provided the
total-duration argument is nonzero; the zero-input guard does not cover
`totalDuration`, whose vanishing makes the function revert on a division
by zero (see the counterexample). -/
theorem claim7_total_when_duration_nonzero (p a t d : Nat) (hd : d ≠ 0) :
    (∃ v, InterestCalculator.calculateCompoundInterest p a t d = .ok v) ∧
    ((p = 0 ∨ a = 0 ∨ t = 0) →
      InterestCalculator.calculateCompoundInterest p a t d = .ok 0) := by
  constructor
  · exact calculateCompoundInterest_isOk p a t d hd
  · intro h
    simp [InterestCalculator.calculateCompoundInterest, h]

/-- Witness for C7 (amended) at concrete inputs. -/
theorem claim7_witness :
    (∃ v, InterestCalculator.calculateCompoundInterest 2 3 0 5 = .ok v) ∧
    ((2 = 0 ∨ 3 = 0 ∨ 0 = 0) →
      InterestCalculator.calculateCompoundInterest 2 3 0 5 = .ok 0) :=
  claim7_total_when_duration_nonzero 2 3 0 5 (by norm_num)

/-! ## Claim C3 -/

namespace YieldManager

theorem updateAccruedInterestS_pool (s : YMState) (pid now : Nat) (s1 : YMState)
    (h : updateAccruedInterestS s pid now = .ok s1) :
    s1.totalRewardPool = s.totalRewardPool ∧
    s1.distributedRewards = s.distributedRewards := by
  unfold updateAccruedInterestS at h
  cases hu : updateAccruedInterest (s.positions pid) now with
  | error e => rw [hu] at h; exact absurd h (by simp)
  | ok r =>
      rw [hu] at h
      have hx := Except.ok.inj h
      subst hx
      exact ⟨rfl, rfl⟩

theorem finalizePositionS_pool_and_inactive (s : YMState) (pid now : Nat)
    (r : YMState × Nat × Nat) (h : finalizePositionS s pid now = .ok r) :
    (r.1.positions pid).isActive = false ∧
    r.1.totalRewardPool = s.totalRewardPool ∧
    r.1.distributedRewards = s.distributedRewards := by
  unfold finalizePositionS at h
  by_cases hact : (s.positions pid).isActive = false
  · rw [if_pos hact] at h; exact absurd h (by simp)
  · rw [if_neg hact] at h
    cases hu : updateAccruedInterestS s pid now with
    | error e => rw [hu] at h; exact absurd h (by simp)
    | ok s1 =>
        rw [hu] at h
        obtain ⟨hP, hD⟩ := updateAccruedInterestS_pool s pid now s1 hu
        have hx := Except.ok.inj h
        subst hx
        refine ⟨?_, hP, hD⟩
        simp [setPosition]

end YieldManager

/-- C3 counterexample: fund the pool with 100, then distribute a
"completion" bonus of 60 on a position of principal 1200.  The bonus fits
(60 ≤ 100), yet afterwards `distributedRewards = 60 > 40 = totalRewardPool`
— the claimed invariant `distributed ≤ totalPool` is already broken by the
very first in-budget distribution, because the code keeps `totalRewardPool`
as a remaining balance that it decrements. -/
theorem claim3_counterexample :
    Claims.ymC3dist = some (40, 60) ∧ ¬ (60 ≤ 40) :=
  ⟨rfl, by decide⟩

/-- C3 (amended): the reward-pool bookkeeping conserves
`totalRewardPool + distributedRewards` under bonus distribution —
`calculateAndDistributeBonus` moves the bonus from `totalRewardPool` to
`distributedRewards` only when `0 < bonus ≤ totalRewardPool`, never
underflowing the pool, and leaves both counters unchanged (while still
returning the unclamped bonus) when the bonus exceeds the pool — but
`recordWithdrawal` adds `interest + bonus` to `distributedRewards`
without any pool check, so `distributed ≤ totalPool` does not hold. -/
theorem claim3_pool_accounting (s : YieldManager.YMState)
    (pid now p i b bAmt : Nat) (ty : String) (s2 s3 : YieldManager.YMState)
    (h1 : YieldManager.calculateAndDistributeBonusS s pid ty now = .ok (s2, bAmt))
    (h2 : YieldManager.recordWithdrawalS s pid p i b now = .ok s3) :
    s2.totalRewardPool + s2.distributedRewards =
      s.totalRewardPool + s.distributedRewards ∧
    s2.totalRewardPool ≤ s.totalRewardPool ∧
    s.distributedRewards ≤ s2.distributedRewards ∧
    (s.totalRewardPool < bAmt →
      s2.totalRewardPool = s.totalRewardPool ∧
      s2.distributedRewards = s.distributedRewards) ∧
    s3.distributedRewards = s.distributedRewards + i + b ∧
    s3.totalRewardPool = s.totalRewardPool := by
  have hrec : s3.distributedRewards = s.distributedRewards + i + b ∧
      s3.totalRewardPool = s.totalRewardPool := by
    unfold YieldManager.recordWithdrawalS at h2
    cases hf : YieldManager.finalizePositionS s pid now with
    | error e => rw [hf] at h2; exact absurd h2 (by simp)
    | ok r =>
        rw [hf] at h2
        obtain ⟨-, hP, hD⟩ :=
          YieldManager.finalizePositionS_pool_and_inactive s pid now r hf
        have hx := Except.ok.inj h2
        subst hx
        exact ⟨by simpa using congrArg (· + i + b) hD, hP⟩
  unfold YieldManager.calculateAndDistributeBonusS at h1
  by_cases hact : (s.positions pid).isActive = false
  · rw [if_pos hact] at h1; exact absurd h1 (by simp)
  · rw [if_neg hact] at h1
    cases hu : YieldManager.updateAccruedInterestS s pid now with
    | error e => rw [hu] at h1; exact absurd h1 (by simp)
    | ok s1 =>
        rw [hu] at h1
        dsimp only at h1
        obtain ⟨hP, hD⟩ := YieldManager.updateAccruedInterestS_pool s pid now s1 hu
        by_cases hcond : YieldManager.bonusFor s1 pid ty > 0 ∧
            YieldManager.bonusFor s1 pid ty ≤ s1.totalRewardPool
        · rw [if_pos hcond] at h1
          have hx := Except.ok.inj h1
          injection hx with hs2 hb
          subst hs2
          subst hb
          have hble := hcond.2
          refine ⟨?_, ?_, ?_, ?_, hrec.1, hrec.2⟩
          · dsimp only; omega
          · dsimp only; omega
          · dsimp only; omega
          · intro hlt
            exfalso
            omega
        · rw [if_neg hcond] at h1
          have hx := Except.ok.inj h1
          injection hx with hs2 hb
          subst hs2
          subst hb
          exact ⟨by omega, by omega, by omega, fun _ => ⟨by omega, by omega⟩,
                 hrec.1, hrec.2⟩

/-- Witness for C3 (amended) at the concrete reward-pool run of the
counterexample state. -/
theorem claim3_witness :
    Claims.ymC3after.totalRewardPool + Claims.ymC3after.distributedRewards =
      Claims.ymC3.totalRewardPool + Claims.ymC3.distributedRewards ∧
    Claims.ymC3after.totalRewardPool ≤ Claims.ymC3.totalRewardPool ∧
    Claims.ymC3.distributedRewards ≤ Claims.ymC3after.distributedRewards ∧
    (Claims.ymC3.totalRewardPool < 60 →
      Claims.ymC3after.totalRewardPool = Claims.ymC3.totalRewardPool ∧
      Claims.ymC3after.distributedRewards = Claims.ymC3.distributedRewards) ∧
    Claims.ymC3rec.distributedRewards = Claims.ymC3.distributedRewards + 7 + 5 ∧
    Claims.ymC3rec.totalRewardPool = Claims.ymC3.totalRewardPool :=
  claim3_pool_accounting Claims.ymC3 0 0 1200 7 5 60 "completion"
    Claims.ymC3after Claims.ymC3rec rfl rfl

/-! ## Claim C4 -/

/-- C4: once a deposit of the core vault is in the terminal (withdrawn)
state — no matter whether `withdrawDeposit` or `emergencyWithdraw` put it
there, both set the same `isWithdrawn` flag — every further
`withdrawDeposit` or `emergencyWithdraw` call on that id by its owner
reverts with "Already withdrawn" (an `error` result is a revert: no state
change and no transfer), and each of the two operations, when it succeeds,
leaves the deposit in that terminal state. -/
theorem claim4_no_double_payout (s : CoreVault.CoreState) (caller id now : Nat)
    (hid : id < s.nextDepositId) (hown : (s.deposits id).user = caller) :
    ((s.deposits id).isWithdrawn = true →
      CoreVault.withdrawDeposit s caller id now = .error "Already withdrawn" ∧
      CoreVault.emergencyWithdraw s caller id now = .error "Already withdrawn") ∧
    (∀ s1 v, CoreVault.withdrawDeposit s caller id now = .ok (s1, v) →
      (s1.deposits id).isWithdrawn = true) ∧
    (∀ s1 v, CoreVault.emergencyWithdraw s caller id now = .ok (s1, v) →
      (s1.deposits id).isWithdrawn = true) := by
  have hidF : ¬ ¬ id < s.nextDepositId := not_not_intro hid
  have hownF : ¬ ¬ (s.deposits id).user = caller := not_not_intro hown
  refine ⟨?_, ?_, ?_⟩
  · intro hw
    constructor
    · unfold CoreVault.withdrawDeposit
      rw [if_neg hidF, if_neg hownF]
      simp [hw]
    · unfold CoreVault.emergencyWithdraw
      rw [if_neg hidF, if_neg hownF]
      simp [hw]
  · intro s1 v h
    unfold CoreVault.withdrawDeposit at h
    rw [if_neg hidF, if_neg hownF] at h
    by_cases hw : (s.deposits id).isWithdrawn = true
    · simp [hw] at h
    · simp only [hw, if_false] at h
      by_cases hm : now < (s.deposits id).maturityTime
      · simp [hm] at h
      · simp only [hm, if_false] at h
        cases hI : CoreVault.calculateCurrentInterest s id now with
        | error e => rw [hI] at h; exact absurd h (by simp)
        | ok interest =>
            rw [hI] at h
            dsimp only at h
            have hx := Except.ok.inj h
            injection hx with hs1 hv
            subst hs1
            simp
  · intro s1 v h
    unfold CoreVault.emergencyWithdraw at h
    rw [if_neg hidF, if_neg hownF] at h
    by_cases hw : (s.deposits id).isWithdrawn = true
    · simp [hw] at h
    · simp only [hw, if_false] at h
      by_cases hm : ¬ now < (s.deposits id).maturityTime
      · simp [hm] at h
      · simp only [hm, if_false] at h
        cases hS : InterestCalculator.safeSub (s.deposits id).amount
            ((s.deposits id).amount * CoreVault.EMERGENCY_PENALTY / CoreVault.BASIS_POINTS) with
        | error e => rw [hS] at h; exact absurd h (by simp)
        | ok amt =>
            rw [hS] at h
            dsimp only at h
            have hx := Except.ok.inj h
            injection hx with hs1 hv
            subst hs1
            simp

/-- Witness for C4 on a concrete withdrawn deposit. -/
theorem claim4_witness :
    CoreVault.withdrawDeposit Claims.csC4 1 0 2592000 = .error "Already withdrawn" ∧
    CoreVault.emergencyWithdraw Claims.csC4 1 0 2592000 = .error "Already withdrawn" :=
  (claim4_no_double_payout Claims.csC4 1 0 2592000 (by decide) rfl).1 rfl

/-! ## Claim C5 -/

/-- C5 counterexample: the maturity bonus of the core vault is *not* 5 % of
principal + interest (nor reward-pool-clamped).  On a 1000-token 30-day
deposit withdrawn exactly at maturity the vault pays
`1000e18 + interest + 100e18` (a 10 % bonus on the principal alone), which
differs from `1000e18 + interest + (1000e18 + interest) * 500 / 10000`,
the payout the claim describes. -/
theorem claim5_counterexample :
    Claims.c5payout = some 1109910176496671259000 ∧
    CoreVault.calculateCurrentInterest Claims.csC5 0 2592000 =
      .ok 9910176496671259000 ∧
    (1109910176496671259000 : Nat) ≠
      10 ^ 21 + 9910176496671259000 +
        (10 ^ 21 + 9910176496671259000) * 500 / 10000 :=
  ⟨rfl, rfl, by decide⟩

/-- C5 (amended): for every matured, unwithdrawn deposit of the core vault
whose interest projection succeeds, `withdrawDeposit` succeeds and pays
exactly `principal + interest + principal * MATURITY_BONUS / BASIS_POINTS`,
i.e. the bonus is 10 % (`MATURITY_BONUS = 1000` basis points) of the
principal alone, with no reward-pool clamping; the deposit is marked
withdrawn with the frozen interest value. -/
theorem claim5_maturity_bonus (s : CoreVault.CoreState) (caller id now interest : Nat)
    (hid : id < s.nextDepositId) (hown : (s.deposits id).user = caller)
    (hnw : (s.deposits id).isWithdrawn = false)
    (hmat : (s.deposits id).maturityTime ≤ now)
    (hI : CoreVault.calculateCurrentInterest s id now = .ok interest) :
    ∃ s1,
      CoreVault.withdrawDeposit s caller id now =
        .ok (s1, (s.deposits id).amount + interest +
          (s.deposits id).amount * CoreVault.MATURITY_BONUS / CoreVault.BASIS_POINTS) ∧
      s1.transfersOut =
        (caller, (s.deposits id).amount + interest +
          (s.deposits id).amount * CoreVault.MATURITY_BONUS / CoreVault.BASIS_POINTS) ::
          s.transfersOut ∧
      (s1.deposits id).isWithdrawn = true ∧
      (s1.deposits id).accruedInterest = interest ∧
      CoreVault.MATURITY_BONUS = 1000 := by
  refine ⟨{ s with
      deposits := fun j =>
        if j = id then
          { s.deposits id with isWithdrawn := true, accruedInterest := interest }
        else s.deposits j,
      totalRewards := s.totalRewards + interest +
        (s.deposits id).amount * CoreVault.MATURITY_BONUS / CoreVault.BASIS_POINTS,
      transfersOut := (caller, (s.deposits id).amount + interest +
        (s.deposits id).amount * CoreVault.MATURITY_BONUS / CoreVault.BASIS_POINTS) ::
        s.transfersOut }, ?_, rfl, by simp, by simp, rfl⟩
  unfold CoreVault.withdrawDeposit
  rw [if_neg (not_not_intro hid), if_neg (not_not_intro hown)]
  simp only [hnw, Bool.false_eq_true, if_false, not_lt.mpr hmat, hI]
  rw [if_pos (ge_iff_le.mpr hmat)]

/-- Witness for C5 (amended) at the concrete matured deposit of `csC5`. -/
theorem claim5_witness :
    ∃ s1,
      CoreVault.withdrawDeposit Claims.csC5 1 0 2592000 =
        .ok (s1, (Claims.csC5.deposits 0).amount + 9910176496671259000 +
          (Claims.csC5.deposits 0).amount * CoreVault.MATURITY_BONUS /
            CoreVault.BASIS_POINTS) ∧
      s1.transfersOut =
        ((1 : Nat), (Claims.csC5.deposits 0).amount + 9910176496671259000 +
          (Claims.csC5.deposits 0).amount * CoreVault.MATURITY_BONUS /
            CoreVault.BASIS_POINTS) :: Claims.csC5.transfersOut ∧
      (s1.deposits 0).isWithdrawn = true ∧
      (s1.deposits 0).accruedInterest = 9910176496671259000 ∧
      CoreVault.MATURITY_BONUS = 1000 :=
  claim5_maturity_bonus Claims.csC5 1 0 2592000 9910176496671259000
    (by decide) rfl rfl (by decide) rfl

/-! ## Claim C6 -/

/-- C6 counterexample: `IVault.emergencyWithdraw` does *not* finalize the
yield position.  On `vsC6` (an open 1000-token 30-day deposit wired to
active yield position 0), emergency withdrawal at day 5 succeeds, pays
`980e18` (the 2 % tier fee) and marks the deposit withdrawn — but position
0 is still `isActive = true` afterwards, because the function never calls
into the YieldManager; the claim's "finalizes the position" is false. -/
theorem claim6_counterexample :
    Claims.c6run = some (true, true, 980 * 10 ^ 18) ∧
    (Claims.c6run.map fun t => t.1) ≠ some false :=
  ⟨rfl, by decide⟩

/-- C6 (amended): for every open deposit, `emergencyWithdraw` succeeds at
any time including pre-maturity (only the ownership and already-withdrawn
checks can reject it), pays exactly
`amount - amount * fee(planDays) / 10000` with the per-plan-duration tier
30d → 2 %, 90d → 3 %, 180d → 4 %, 365d → 5 % (always the full tier rate;
e.g. 20 units on a 1000-unit 30-day deposit at day 5), forfeits all
accrued interest (nothing beyond that amount is paid), and marks the
deposit withdrawn — but it does *not* finalize the yield position: the
YieldManager state is left completely untouched. -/
theorem claim6_emergency_withdraw (s : IVault.VaultState) (caller id now : Nat)
    (hown : (s.deposits id).user = caller)
    (hnw : (s.deposits id).isWithdrawn = false) :
    ∃ s2,
      IVault.emergencyWithdraw s caller id now =
        .ok (s2, (s.deposits id).amount -
          (s.deposits id).amount *
            IVault.emergencyWithdrawalFees (s.deposits id).planDays / 10000) ∧
      (s2.deposits id).isWithdrawn = true ∧
      s2.ym = s.ym ∧
      s2.transfersOut = (caller, (s.deposits id).amount -
          (s.deposits id).amount *
            IVault.emergencyWithdrawalFees (s.deposits id).planDays / 10000) ::
          s.transfersOut ∧
      (∀ j, ¬ j = id → s2.deposits j = s.deposits j) ∧
      IVault.emergencyWithdrawalFees 30 = 200 ∧
      IVault.emergencyWithdrawalFees 90 = 300 ∧
      IVault.emergencyWithdrawalFees 180 = 400 ∧
      IVault.emergencyWithdrawalFees 365 = 500 := by
  have hr : IVault.emergencyWithdrawalFees (s.deposits id).planDays ≤ 10000 := by
    unfold IVault.emergencyWithdrawalFees
    split_ifs <;> norm_num
  have hfee : (s.deposits id).amount *
      IVault.emergencyWithdrawalFees (s.deposits id).planDays / 10000 ≤
      (s.deposits id).amount :=
    calc (s.deposits id).amount *
          IVault.emergencyWithdrawalFees (s.deposits id).planDays / 10000
        ≤ (s.deposits id).amount * 10000 / 10000 :=
          Nat.div_le_div_right (Nat.mul_le_mul_left _ hr)
      _ = (s.deposits id).amount := by omega
  have hsub : InterestCalculator.safeSub (s.deposits id).amount
      ((s.deposits id).amount *
        IVault.emergencyWithdrawalFees (s.deposits id).planDays / 10000) =
      .ok ((s.deposits id).amount -
        (s.deposits id).amount *
          IVault.emergencyWithdrawalFees (s.deposits id).planDays / 10000) := by
    unfold InterestCalculator.safeSub
    rw [if_neg (not_lt.mpr hfee)]
  refine ⟨{ IVault.setDeposit s id { s.deposits id with isWithdrawn := true } with
             transfersOut := (caller, (s.deposits id).amount -
               (s.deposits id).amount *
                 IVault.emergencyWithdrawalFees (s.deposits id).planDays / 10000) ::
               s.transfersOut }, ?_, ?_, rfl, rfl, ?_, rfl, rfl, rfl, rfl⟩
  · unfold IVault.emergencyWithdraw
    rw [if_neg (not_not_intro hown)]
    simp only [hnw, Bool.false_eq_true, if_false, hsub]
  · simp [IVault.setDeposit]
  · intro j hj
    simp [IVault.setDeposit, hj]

/-- Witness for C6 (amended): Scenario B — emergency withdrawal of a
1000-token 30-day deposit at day 5 pays 980 tokens. -/
theorem claim6_witness :
    ∃ s2,
      IVault.emergencyWithdraw Claims.vsC6 1 1 432000 =
        .ok (s2, (Claims.vsC6.deposits 1).amount -
          (Claims.vsC6.deposits 1).amount *
            IVault.emergencyWithdrawalFees (Claims.vsC6.deposits 1).planDays / 10000) ∧
      (s2.deposits 1).isWithdrawn = true ∧
      s2.ym = Claims.vsC6.ym ∧
      s2.transfersOut = ((1 : Nat), (Claims.vsC6.deposits 1).amount -
          (Claims.vsC6.deposits 1).amount *
            IVault.emergencyWithdrawalFees (Claims.vsC6.deposits 1).planDays / 10000) ::
          Claims.vsC6.transfersOut ∧
      (∀ j, ¬ j = 1 → s2.deposits j = Claims.vsC6.deposits j) ∧
      IVault.emergencyWithdrawalFees 30 = 200 ∧
      IVault.emergencyWithdrawalFees 90 = 300 ∧
      IVault.emergencyWithdrawalFees 180 = 400 ∧
      IVault.emergencyWithdrawalFees 365 = 500 :=
  claim6_emergency_withdraw Claims.vsC6 1 1 432000 rfl rfl

/-! ## Claim C8 -/

/-- C8 counterexample: the read-only projection does not match a real
accrual.  On `vsC8` (1000 tokens, 30-day plan, created at 0, yield
position built by the embedded `createYieldPosition`), at maturity the
projection `calculateCurrentInterest` returns the simple pro-rata value
2465753424657534246, while actually accruing the deposit's yield position
(`updateAccruedInterest`) at the same instant produces the
daily-compounded 2468694317849156000. -/
theorem claim8_counterexample :
    IVault.calculateCurrentInterest Claims.vsC8 1 2592000 =
      .ok 2465753424657534246 ∧
    Claims.c8accrued = some 2468694317849156000 ∧
    (2465753424657534246 : Nat) ≠ 2468694317849156000 :=
  ⟨rfl, rfl, by decide⟩

/-- C8 (amended): `calculateCurrentInterest` is a read-only projection (a
pure function of the state), but what it returns is the *simple* pro-rata
interest `amount * apy * elapsed / 365 days / 10000`, with the elapsed
time capped at `maturityTime - createdAt` (0 for a withdrawn deposit); in
general this differs from what a real accrual of the deposit's yield
position produces (see the counterexample). -/
theorem claim8_projection_formula (s : IVault.VaultState) (id now : Nat)
    (h1 : (s.deposits id).createdAt ≤ now)
    (h2 : (s.deposits id).createdAt ≤ (s.deposits id).maturityTime) :
    IVault.calculateCurrentInterest s id now =
      .ok (if (s.deposits id).isWithdrawn = true then 0
           else (s.deposits id).amount *
             (IVault.savingsPlans (s.deposits id).planDays).apyBasisPoints *
             min (now - (s.deposits id).createdAt)
               ((s.deposits id).maturityTime - (s.deposits id).createdAt) /
             (365 * 86400) / 10000) := by
  by_cases hw : (s.deposits id).isWithdrawn = true
  · simp [IVault.calculateCurrentInterest, hw]
  · unfold IVault.calculateCurrentInterest
    simp only [hw, Bool.false_eq_true, if_false]
    by_cases hm : now > (s.deposits id).maturityTime
    · rw [if_pos hm]
      have hsub : InterestCalculator.safeSub (s.deposits id).maturityTime
          (s.deposits id).createdAt =
          .ok ((s.deposits id).maturityTime - (s.deposits id).createdAt) := by
        unfold InterestCalculator.safeSub
        rw [if_neg (not_lt.mpr h2)]
      rw [hsub]
      have hminR : min (now - (s.deposits id).createdAt)
          ((s.deposits id).maturityTime - (s.deposits id).createdAt) =
          (s.deposits id).maturityTime - (s.deposits id).createdAt :=
        min_eq_right (Nat.sub_le_sub_right (le_of_lt hm) _)
      rw [hminR]
    · rw [if_neg hm]
      have hsub : InterestCalculator.safeSub now (s.deposits id).createdAt =
          .ok (now - (s.deposits id).createdAt) := by
        unfold InterestCalculator.safeSub
        rw [if_neg (not_lt.mpr h1)]
      rw [hsub]
      have hminL : min (now - (s.deposits id).createdAt)
          ((s.deposits id).maturityTime - (s.deposits id).createdAt) =
          now - (s.deposits id).createdAt :=
        min_eq_left (Nat.sub_le_sub_right (not_lt.mp hm) _)
      rw [hminL]

/-- Witness for C8 (amended) at the concrete state `vsC8`. -/
theorem claim8_witness :
    IVault.calculateCurrentInterest Claims.vsC8 1 2592000 =
      .ok (if (Claims.vsC8.deposits 1).isWithdrawn = true then 0
           else (Claims.vsC8.deposits 1).amount *
             (IVault.savingsPlans (Claims.vsC8.deposits 1).planDays).apyBasisPoints *
             min (2592000 - (Claims.vsC8.deposits 1).createdAt)
               ((Claims.vsC8.deposits 1).maturityTime -
                 (Claims.vsC8.deposits 1).createdAt) /
             (365 * 86400) / 10000) :=
  claim8_projection_formula Claims.vsC8 1 2592000 (by decide) (by decide)

/-! ## Claim C9 -/

/-- C9: the milestone notification is *not* idempotent and a failing
notifier *does* block the deposit.  From a fresh core vault, user 1's
first `createDeposit` of 150 tokens into the 30-day plan succeeds and
mints FIRST_DEPOSIT and PIGGY_SAVER; the second, identical deposit reverts
wholesale with "User already has this NFT", because
`_checkAmountMilestones` calls `mintReward` again for the 100-token tier
and `_mintRewardInternal` *requires* the category to be new (its sibling
entry points `mintTimeBasedReward` / `mintAmountBasedReward` /
`batchMintRewards` instead skip in that case, which documents the intended
idempotent behaviour). -/
theorem claim9_second_deposit_reverts :
    (Claims.c9s1.map fun s1 => s1.userHasNFT 1 "PIGGY_SAVER") = some true ∧
    (Claims.c9s1.map fun s1 => s1.userHasNFT 1 "FIRST_DEPOSIT") = some true ∧
    Claims.c9err = some "User already has this NFT" :=
  ⟨rfl, rfl, rfl⟩

/-! ## Claim C10 -/

namespace YieldManager

theorem calculateAccruedInterest_isOk (pos : YieldPosition) (now : Nat)
    (hinv : pos.lastUpdateTime ≤ pos.endTime) :
    ∃ v, calculateAccruedInterest pos now = .ok v := by
  unfold calculateAccruedInterest
  by_cases hguard : pos.isActive = false ∨ now ≤ pos.lastUpdateTime
  · rw [if_pos hguard]
    exact ⟨0, rfl⟩
  · rw [if_neg hguard]
    push_neg at hguard
    have hcur_ge : pos.lastUpdateTime ≤ (if now > pos.endTime then pos.endTime else now) := by
      split
      · exact hinv
      · exact le_of_lt hguard.2
    have hsub : InterestCalculator.safeSub
        (if now > pos.endTime then pos.endTime else now) pos.lastUpdateTime =
        .ok ((if now > pos.endTime then pos.endTime else now) - pos.lastUpdateTime) := by
      unfold InterestCalculator.safeSub
      rw [if_neg (not_lt.mpr hcur_ge)]
    simp only [hsub]
    exact calculateCompoundInterest_isOk _ _ _ _
      (by norm_num [InterestCalculator.SECONDS_PER_DAY])

theorem updateAccruedInterest_isOk (pos : YieldPosition) (now : Nat)
    (hact : pos.isActive = true)
    (hinv : pos.lastUpdateTime ≤ pos.endTime) :
    ∃ r, updateAccruedInterest pos now = .ok r ∧ r.1.isActive = true := by
  obtain ⟨v, hv⟩ := calculateAccruedInterest_isOk pos now hinv
  unfold updateAccruedInterest
  rw [if_neg (by simp [hact] : ¬ pos.isActive = false), hv]
  dsimp only
  by_cases hv0 : v > 0
  · rw [if_pos hv0]
    exact ⟨_, rfl, hact⟩
  · rw [if_neg hv0]
    exact ⟨_, rfl, hact⟩

theorem updateAccruedInterestS_isOk (s : YMState) (pid now : Nat)
    (hact : (s.positions pid).isActive = true)
    (hinv : (s.positions pid).lastUpdateTime ≤ (s.positions pid).endTime) :
    ∃ s1, updateAccruedInterestS s pid now = .ok s1 ∧
      (s1.positions pid).isActive = true := by
  obtain ⟨r, hr, hra⟩ := updateAccruedInterest_isOk (s.positions pid) now hact hinv
  unfold updateAccruedInterestS
  rw [hr]
  refine ⟨_, rfl, ?_⟩
  simpa [setPosition] using hra

theorem finalizePositionS_isOk (s : YMState) (pid now : Nat)
    (hact : (s.positions pid).isActive = true)
    (hinv : (s.positions pid).lastUpdateTime ≤ (s.positions pid).endTime) :
    ∃ r, finalizePositionS s pid now = .ok r := by
  obtain ⟨s1, hs1, -⟩ := updateAccruedInterestS_isOk s pid now hact hinv
  unfold finalizePositionS
  rw [if_neg (by simp [hact] : ¬ (s.positions pid).isActive = false), hs1]
  exact ⟨_, rfl⟩

theorem calculateAndDistributeBonusS_inactive (s : YMState) (pid : Nat)
    (ty : String) (now : Nat) (h : (s.positions pid).isActive = false) :
    calculateAndDistributeBonusS s pid ty now = .error "Position not active" := by
  unfold calculateAndDistributeBonusS
  rw [if_pos h]

end YieldManager

/-- C10: in the vault implementation of `interfaces/IPiggyVault.sol`,
`withdraw` can never succeed (every execution path reverts, so no payout
and no state change ever happens); in particular, on every matured,
unwithdrawn deposit of the caller whose linked position satisfies the
position invariant `lastUpdateTime ≤ endTime`, it reverts with exactly
"Position not active": `finalizePosition` marks the position inactive and
the subsequent `calculateAndDistributeBonus "completion"` on that same
position then fails its activity check (and when the position was already
inactive, `finalizePosition` itself fails with the same message). -/
theorem claim10_withdraw_never_succeeds (s : IVault.VaultState)
    (caller id now : Nat) :
    (∀ r, IVault.withdraw s caller id now ≠ .ok r) ∧
    ((s.deposits id).user = caller → (s.deposits id).isWithdrawn = false →
     (s.deposits id).maturityTime ≤ now →
     (s.ym.positions (s.depositYieldPositions id)).lastUpdateTime ≤
       (s.ym.positions (s.depositYieldPositions id)).endTime →
     IVault.withdraw s caller id now = .error "Position not active") := by
  constructor
  · intro r h
    unfold IVault.withdraw at h
    by_cases h1 : ¬ (s.deposits id).user = caller
    · rw [if_pos h1] at h
      exact absurd h (by simp)
    · rw [if_neg h1] at h
      by_cases h2 : (s.deposits id).isWithdrawn = true
      · simp [h2] at h
      · simp only [h2, if_false] at h
        by_cases h3 : now < (s.deposits id).maturityTime
        · simp [h3] at h
        · simp only [h3, if_false] at h
          cases hf : YieldManager.finalizePositionS s.ym
              (s.depositYieldPositions id) now with
          | error e => rw [hf] at h; exact absurd h (by simp)
          | ok r1 =>
              rw [hf] at h
              dsimp only at h
              have hin : (r1.1.positions (s.depositYieldPositions id)).isActive = false :=
                (YieldManager.finalizePositionS_pool_and_inactive _ _ _ _ hf).1
              rw [if_pos (ge_iff_le.mpr (not_lt.mp h3)),
                  YieldManager.calculateAndDistributeBonusS_inactive _ _ _ _ hin] at h
              exact absurd h (by simp)
  · intro hown hnw hmat hinv
    unfold IVault.withdraw
    rw [if_neg (not_not_intro hown)]
    simp only [hnw, Bool.false_eq_true, if_false, not_lt.mpr hmat]
    by_cases hact : (s.ym.positions (s.depositYieldPositions id)).isActive = false
    · have hfe : YieldManager.finalizePositionS s.ym (s.depositYieldPositions id) now =
          .error "Position not active" := by
        unfold YieldManager.finalizePositionS
        rw [if_pos hact]
      rw [hfe]
    · have hactT : (s.ym.positions (s.depositYieldPositions id)).isActive = true := by
        simpa using hact
      obtain ⟨r1, hr1⟩ := YieldManager.finalizePositionS_isOk s.ym
        (s.depositYieldPositions id) now hactT hinv
      rw [hr1]
      dsimp only
      have hin := (YieldManager.finalizePositionS_pool_and_inactive _ _ _ _ hr1).1
      rw [if_pos (ge_iff_le.mpr hmat),
          YieldManager.calculateAndDistributeBonusS_inactive _ _ _ _ hin]

/-- Witness for C10 at a concrete matured deposit with an active linked
position. -/
theorem claim10_witness :
    IVault.withdraw Claims.vsC10 1 1 2592000 = .error "Position not active" :=
  (claim10_withdraw_never_succeeds Claims.vsC10 1 1 2592000).2 rfl rfl
    (by decide) (by decide)

end PiggyBoss
